import Mathlib

/-!
Verification of the in-browser analytics pipeline (`src/components/Chat.tsx`,
`src/workers/py-worker.ts` and the unnamed worker variant `src/unnamed/part_002`).

The TypeScript code is shallowly embedded:
* JavaScript/JSON values are modelled by the inductive type `Json`
  (with an explicit `jsUndefined` constructor for JavaScript `undefined`);
* external collaborators (`JSON.parse`, the Model Gateway responses, and
  `pyodide.runPythonAsync`) are passed in as explicit oracle parameters;
* fallible code paths (thrown exceptions) are modelled with `Except`.
-/

/-- JavaScript/JSON values.  `jsUndefined` models JavaScript `undefined`, which the
source code produces through failed property accesses and optional chaining. -/
inductive Json where
  | jsUndefined
  | null
  | bool (b : Bool)
  | num (n : Int)
  | str (s : String)
  | arr (elems : List Json)
  | obj (fields : List (String × Json))

/-- JavaScript property access `j[k]`: looks up the field on an object,
yields `undefined` on anything else (the code only accesses properties of
parsed JSON values, so getters on primitives never come up). -/
def Json.get (j : Json) (k : String) : Json :=
  match j with
  | .obj fields =>
    match fields.lookup k with
    | some v => v
    | none => .jsUndefined
  | _ => .jsUndefined

/-- JavaScript falsiness, as used by the source's `if (!x)` guards:
`undefined`, `null`, `false`, `0` and the empty string are falsy. -/
def Json.falsy : Json → Bool
  | .jsUndefined => true
  | .null => true
  | .bool b => !b
  | .num n => n == 0
  | .str s => s == ""
  | .arr _ => false
  | .obj _ => false

/-- `Array.isArray`. -/
def Json.isArray : Json → Bool
  | .arr _ => true
  | _ => false

/-- The element list of an array value (only used after an `Array.isArray`
check in the source). -/
def Json.asArr : Json → List Json
  | .arr xs => xs
  | _ => []

/-- `Object.entries` on an object; non-objects contribute no entries in the
places the source uses it. -/
def Json.toEntries : Json → List (String × Json)
  | .obj fields => fields
  | _ => []

mutual
/-- JavaScript string coercion, as performed by template literals such as
the source's key `${task.fileId}_${task.sheetId}`. -/
def Json.toDisplay : Json → String
  | .jsUndefined => "undefined"
  | .null => "null"
  | .bool b => if b then "true" else "false"
  | .num n => toString n
  | .str s => s
  | .arr xs => Json.displayList xs
  | .obj _ => "[object Object]"

/-- `Array.prototype.toString`: elements joined with commas, with `null`
and `undefined` elements rendered as the empty string. -/
def Json.displayList : List Json → String
  | [] => ""
  | [x] => Json.displayElem x
  | x :: xs => Json.displayElem x ++ "," ++ Json.displayList xs

/-- One array element inside `Array.prototype.toString`. -/
def Json.displayElem : Json → String
  | .null => ""
  | .jsUndefined => ""
  | j => Json.toDisplay j
end

/-- JavaScript strict equality `j === s` between an arbitrary value and a
string literal, as in `s.fileId === task.fileId` (with the sheet field a
string) and `e.data.type === 'result'`. -/
def jsStrEq (j : Json) (s : String) : Bool :=
  match j with
  | .str t => t == s
  | _ => false

/-- JavaScript object-property assignment `fields[k] = v`: updates the value
in place if the key exists, otherwise appends a new entry (insertion order
is preserved, as for JavaScript objects). -/
def setEntry {α : Type} (fields : List (String × α)) (k : String) (v : α) :
    List (String × α) :=
  if fields.any (fun p => p.1 == k) then
    fields.map (fun p => if p.1 == k then (k, v) else p)
  else
    fields ++ [(k, v)]

/-- `String.prototype.replace(/[^a-z0-9]/gi, '_')` on one character:
ASCII letters and digits are kept, everything else becomes an underscore. -/
def sanitizeChar (c : Char) : Char :=
  if c.isAlpha || c.isDigit then c else '_'

/-- The table-name sanitization `key.replace(/[^a-z0-9]/gi, '_')` used when
registering dataframes and when building the exec `dfName`
(`Chat.tsx` lines 486-490 and 635-640). -/
def sanitizeName (s : String) : String :=
  String.mk (s.data.map sanitizeChar)

/- ------------------------------------------------------------------------
Sandbox Execution Engine: the Pyodide worker, embedded from
`src/unnamed/part_002` (whose register handler and exec error path coincide
with `src/workers/py-worker.ts`; `part_002` additionally honours `dfName`
with a fallback default).
------------------------------------------------------------------------ -/

/-- The payload of an `exec` message sent to the Python worker
(`Chat.tsx` lines 635-640). -/
structure ExecMessage where
  code : Json
  resultType : Json
  dfName : Json

/-- Messages the Python worker posts back over the channel
(`self.postMessage` in the worker). -/
inductive WorkerMessage where
  | ready
  | result (resultType : String) (payload : String)
  | workerError (error : String)

/-- `const dfName = data.dfName || 'sample_funds_xlsx_Sheet1'`
(`part_002` line 94): the fallback default table name. -/
def execDfName (m : ExecMessage) : Json :=
  if m.dfName.falsy then .str "sample_funds_xlsx_Sheet1" else m.dfName

/-- The text of the exec template literal before `${dfName}`
(`part_002` lines 97-99). -/
def execHarnessPre : String :=
  "\ntry:\n    df = globals()[\x27"

/-- The text of the exec template literal between `${dfName}` and the
`except` clause (`part_002` lines 99-147): the engine-chosen auto-chart
computation. -/
def execHarnessBody : String :=
  "\x27].copy()\n    # Sort by the first column if it\x27s a date or year\n    x_col = df.columns[0]\n    if pd.api.types.is_datetime64_any_dtype(df[x_col]) or x_col.lower() in [\x27date\x27, \x27year\x27]:\n        df[x_col] = pd.to_datetime(df[x_col], errors=\x27ignore\x27)\n        df = df.sort_values(x_col).reset_index(drop=True)\n    # Find all numeric columns except the first (x_col)\n    numeric_cols = [col for col in df.columns if col != x_col and pd.api.types.is_numeric_dtype(df[col])]\n    # Create plot data for all numeric columns\n    plot_data = \x7b\n        \x27data\x27: [\n            \x7b\n                \x27x\x27: df[x_col].astype(str).tolist(),\n                \x27y\x27: df[col].tolist(),\n                \x27type\x27: \x27scatter\x27,\n                \x27mode\x27: \x27lines+markers\x27,\n                \x27name\x27: col\n            \x7d for col in numeric_cols\n        ],\n        \x27layout\x27: \x7b\n            \x27title\x27: \x7b\n                \x27text\x27: \x27Auto Chart\x27,\n                \x27font\x27: \x7b\x27size\x27: 24\x7d\n            \x7d,\n            \x27xaxis\x27: \x7b\n                \x27title\x27: x_col,\n                \x27tickangle\x27: -45,\n                \x27gridcolor\x27: \x27rgb(240, 240, 240)\x27,\n                \x27showgrid\x27: True\n            \x7d,\n            \x27yaxis\x27: \x7b\n                \x27title\x27: \x27Value\x27,\n                \x27gridcolor\x27: \x27rgb(240, 240, 240)\x27,\n                \x27showgrid\x27: True\n            \x7d,\n            \x27showlegend\x27: True,\n            \x27legend\x27: \x7b\n                \x27x\x27: 0.02,\n                \x27y\x27: 0.98,\n                \x27bgcolor\x27: \x27rgba(255, 255, 255, 0.9)\x27,\n                \x27bordercolor\x27: \x27rgba(0, 0, 0, 0.2)\x27,\n                \x27borderwidth\x27: 1\n            \x7d,\n            \x27hovermode\x27: \x27x unified\x27,\n            \x27plot_bgcolor\x27: \x27white\x27,\n            \x27margin\x27: \x7b\x27t\x27: 50, \x27b\x27: 80, \x27l\x27: 60, \x27r\x27: 20\x7d\n        \x7d\n    \x7d\n    result = json.dumps(plot_data)\n"

/-- The closing text of the exec template literal (`part_002` lines
148-152): the local exception boundary and final expression. -/
def execHarnessCatch : String :=
  "except Exception as e:\n    print(f\"Error executing code: \x7bstr(e)\x7d\")\n    raise e\nresult\n"

/-- The Python text the worker actually hands to `py.runPythonAsync` for an
`exec` message (`part_002` lines 94-152).  Note that `data.code` is
nowhere interpolated: the worker runs its own auto-chart computation. -/
def executedPython (m : ExecMessage) : String :=
  execHarnessPre ++ (execDfName m).toDisplay ++ execHarnessBody ++ execHarnessCatch

/-- The worker's `exec` handler (`part_002` lines 93-173):
* runs `executedPython m` in Pyodide (modelled by the oracle `runPy`, which
  returns the final `result` string or the raised exception's message);
* a falsy result raises `No result returned from Python code`;
* any exception is caught, wrapped as
  `Failed to execute Python code: <message>` and re-raised, and the
  worker's outer catch posts it as a `type: 'error'` message
  (never letting the exception cross the channel);
* on success a `type: 'result'` message with the HARDCODED
  `resultType: 'plot'` is posted (line 160-164; `py-worker.ts` lines
  190-194 are identical in this respect). -/
def pyWorkerExec (runPy : String → Except String String) (m : ExecMessage) :
    WorkerMessage :=
  match runPy (executedPython m) with
  | .error e => .workerError ("Failed to execute Python code: " ++ e)
  | .ok res =>
    if res == "" then
      .workerError ("Failed to execute Python code: " ++ "No result returned from Python code")
    else
      .result "plot" res

/-- `true` exactly on `type: 'result'` worker messages. -/
def isResultMessage : WorkerMessage → Bool
  | .result _ _ => true
  | _ => false

/-- `Chat.tsx` lines 739-745: the orchestrator forwards only
`type === 'result'` worker messages to the presentation layer
(`window.postMessage`); `error` and `ready` messages are not forwarded. -/
def chatForwardWorkerMessage (m : WorkerMessage) : Option WorkerMessage :=
  match m with
  | .result rt p => some (.result rt p)
  | _ => none

/-- The interpreter's global namespace, holding the registered tables
(each table is the list of records it was materialized from). -/
abbrev Env := List (String × List Json)

/-- `globals()['name']` lookup in the interpreter. -/
def envLookup (name : String) (env : Env) : Option (List Json) :=
  env.lookup name

/-- The worker's `register` handler (`part_002` lines 73-91, identical in
`py-worker.ts`): embeds the effect of the Python snippet
`df = pd.DataFrame(json.loads(JSON.stringify(records)))` followed by
`globals()['name'] = df` — the records are materialized as a table bound to
`name` in the interpreter's global namespace, shadowing (overwriting) any
previous binding of the same name. -/
def registerHandler (name : String) (records : List Json) (env : Env) : Env :=
  (name, records) :: env

/- ------------------------------------------------------------------------
Pipeline Orchestrator: `Chat.tsx` `handleMessage` (lines 61-654).
Gateway responses and `JSON.parse` are oracles.
------------------------------------------------------------------------ -/

/-- One rasterized sheet (`types.ts` `SheetPNG`). -/
structure SheetPNG where
  fileId : String
  sheetId : String
  pngUrl : String
  dimsW : Int
  dimsH : Int

/-- `choices[0].message.function_call` of a Model Gateway response. -/
structure FunctionCall where
  name : String
  arguments : String

/-- `choices[0].message` of a Model Gateway response. -/
structure GatewayMessage where
  function_call : Option FunctionCall
  content : Option String

/-- One Model Gateway HTTP response, as consumed by the orchestrator:
`ok`/`status`/body text of the fetch, and `choices[0]?.message`
(`none` when the choices array is empty or malformed). -/
structure GatewayResponse where
  ok : Bool
  status : Nat
  bodyText : String
  message : Option GatewayMessage

/-- The optional chain `...choices[0]?.message?.function_call`. -/
def fnCallOf (resp : GatewayResponse) : Option FunctionCall :=
  resp.message.bind (fun m => m.function_call)

/-- The optional chain `...choices[0]?.message?.content`. -/
def contentOf (resp : GatewayResponse) : Option String :=
  resp.message.bind (fun m => m.content)

/-- Outcome of parsing the planner response (`Chat.tsx` lines 199-251). -/
inductive PlannerOutcome where
  | clarified (msg : Json)
  | planned (tasks : List Json)
  | failed (err : String)

/-- `Chat.tsx` lines 204-210: extracting the clarification text from a
`clarify_user_intent` function call, with the catch-all fallback message
when `JSON.parse` throws.  A parse that succeeds but lacks the
`clarification` key yields `undefined` (no exception). -/
def clarificationMessage (parseJson : String → Except String Json)
    (args : String) : Json :=
  match parseJson args with
  | .ok j => j.get "clarification"
  | .error _ => .str "Sorry, I need more information to proceed."

/-- `Chat.tsx` lines 231-236: the JSON-encoded text fallback of the planner
parse.  Note: it takes `content.tasks` WITHOUT validating the tasks'
`fileId`s against the inventory. -/
def plannerContentFallback (parseJson : String → Except String Json)
    (resp : GatewayResponse) : PlannerOutcome :=
  match contentOf resp with
  | some c =>
    if c != "" then
      match parseJson c with
      | .error e => .failed e
      | .ok content =>
        if (content.get "tasks").falsy || !(content.get "tasks").isArray then
          .failed "Message response missing tasks array"
        else
          .planned (content.get "tasks").asArr
    else
      .failed "Response missing valid message structure"
  | none => .failed "Response missing valid message structure"

/-- `Chat.tsx` lines 199-251: parsing the planner response.
* a `clarify_user_intent` function call short-circuits to a clarification;
* an `extract_tasks` function call with truthy arguments is parsed and its
  tasks' `fileId`s are validated against `validFileIds` (lines 223-230);
* otherwise the JSON-encoded text fallback applies;
* any thrown error is caught by the inner catch (lines 242-251), which
  surfaces `Error: <message>` and returns — modelled by `failed`. -/
def parsePlannerResponse (parseJson : String → Except String Json)
    (resp : GatewayResponse) (validFileIds : List String) : PlannerOutcome :=
  match fnCallOf resp with
  | some fc =>
    if fc.name == "clarify_user_intent" then
      .clarified (clarificationMessage parseJson fc.arguments)
    else if fc.name == "extract_tasks" && fc.arguments != "" then
      match parseJson fc.arguments with
      | .error e => .failed e
      | .ok functionArgs =>
        if (functionArgs.get "tasks").falsy || !(functionArgs.get "tasks").isArray then
          .failed "Function response missing tasks array"
        else
          let tasks := (functionArgs.get "tasks").asArr
          let invalidTasks :=
            tasks.filter (fun t => !(validFileIds.any (fun v => jsStrEq (t.get "fileId") v)))
          if invalidTasks.length > 0 then
            .failed ("Tasks contain invalid fileIds. Got: "
              ++ String.intercalate ", " (invalidTasks.map (fun t => (t.get "fileId").toDisplay))
              ++ ". Expected one of: " ++ String.intercalate ", " validFileIds)
          else
            .planned tasks
    else
      plannerContentFallback parseJson resp
  | none => plannerContentFallback parseJson resp

/-- `Chat.tsx` lines 258-260: `sheets.find(s => s.fileId === task.fileId &&
s.sheetId === task.sheetId)`. -/
def findSheet (sheets : List SheetPNG) (t : Json) : Option SheetPNG :=
  sheets.find? (fun s => jsStrEq (t.get "fileId") s.fileId && jsStrEq (t.get "sheetId") s.sheetId)

/-- `Chat.tsx` lines 432-456: obtaining `records` (and `column_labels`) from
an extractor response, before the emptiness check.  Mirrors the branch
structure: truthy `function_call.arguments` (with the literal `'{}'`/`''`
guard), then truthy `content`, then the structure error. -/
def parseExtractorRaw (parseJson : String → Except String Json)
    (resp : GatewayResponse) : Except String (List Json × Json) :=
  let contentFallback : Except String (List Json × Json) :=
    match contentOf resp with
    | some c =>
      if c != "" then
        match parseJson c with
        | .error e => .error e
        | .ok content =>
          if (content.get "records").falsy || !(content.get "records").isArray then
            .error "Message response missing records array"
          else
            .ok ((content.get "records").asArr,
              if (content.get "column_labels").falsy then .obj []
              else content.get "column_labels")
      else
        .error "Response missing valid message structure"
    | none => .error "Response missing valid message structure"
  match fnCallOf resp with
  | some fc =>
    if fc.arguments != "" then
      if fc.arguments == "\x7b\x7d" || fc.arguments == "" then
        .error "Extractor returned empty data"
      else
        match parseJson fc.arguments with
        | .error e => .error e
        | .ok functionArgs =>
          if (functionArgs.get "records").falsy || !(functionArgs.get "records").isArray then
            .error "Function response missing records array"
          else
            .ok ((functionArgs.get "records").asArr,
              if (functionArgs.get "column_labels").falsy then .obj []
              else functionArgs.get "column_labels")
    else
      contentFallback
  | none => contentFallback

/-- `Chat.tsx` lines 432-468: the full extractor-response validation,
including the `records.length === 0` check of lines 458-460.  There is no
check that individual records contain a `date` field. -/
def parseExtractorResponse (parseJson : String → Except String Json)
    (resp : GatewayResponse) : Except String (List Json × Json) :=
  match parseExtractorRaw parseJson resp with
  | .error e => .error e
  | .ok (records, labels) =>
    if records.length == 0 then
      .error "No records were extracted from the sheet"
    else
      .ok (records, labels)

/-- Result of the sequential extraction loop: the number of extractor
Gateway calls actually made, and either the accumulated
`extractedData`/`columnLabels` or the error that aborted the run. -/
structure ExtractOut where
  calls : Nat
  result : Except String (List (String × List Json) × Json)

/-- `Chat.tsx` lines 254-471: the sequential per-task extraction loop.
* a task whose `(fileId, sheetId)` matches no loaded sheet is skipped with
  `continue` (lines 258-264): no Gateway call, no error, no entry;
* a non-ok extractor response throws `Extractor API error: ...`;
* a response failing validation throws
  `Failed to parse extractor response: ...`;
* on success `extractedData[`${task.fileId}_${task.sheetId}`] = records`
  and `columnLabels` is reassigned. -/
def extractLoop (parseJson : String → Except String Json)
    (extractor : Nat → GatewayResponse) (sheets : List SheetPNG) :
    List Json → Nat → List (String × List Json) → Json → ExtractOut
  | [], calls, acc, labels => ⟨calls, .ok (acc, labels)⟩
  | t :: rest, calls, acc, labels =>
    match findSheet sheets t with
    | none => extractLoop parseJson extractor sheets rest calls acc labels
    | some _ =>
      let resp := extractor calls
      if !resp.ok then
        ⟨calls + 1, .error ("Extractor API error: " ++ toString resp.status ++ " - " ++ resp.bodyText)⟩
      else
        match parseExtractorResponse parseJson resp with
        | .error e => ⟨calls + 1, .error ("Failed to parse extractor response: " ++ e)⟩
        | .ok (records, newLabels) =>
          extractLoop parseJson extractor sheets rest (calls + 1)
            (setEntry acc ((t.get "fileId").toDisplay ++ "_" ++ (t.get "sheetId").toDisplay) records)
            newLabels

/-- One step of the record normalization of `Chat.tsx` lines 478-483:
for an entry other than `date`, a value with `typeof value === 'object'`
and a `value` property is unwrapped to `value.value`; everything else is
dropped.  `'value' in null` throws a `TypeError` in JavaScript, which the
outer catch would surface. -/
def normStep (acc : List (String × Json)) (kv : String × Json) :
    Except String (List (String × Json)) :=
  if kv.1 == "date" then .ok acc
  else
    match kv.2 with
    | .null => .error "Cannot use \x27in\x27 operator to search for \x27value\x27 in null"
    | .obj fs =>
      if fs.any (fun p => p.1 == "value") then
        .ok (setEntry acc kv.1 ((Json.obj fs).get "value"))
      else
        .ok acc
    | _ => .ok acc

/-- The sequential `Object.entries(r).forEach` traversal of `Chat.tsx`
lines 479-483, threading the `processed` object through `normStep` and
stopping at the first thrown `TypeError`. -/
def normFold : List (String × Json) → List (String × Json) →
    Except String (List (String × Json))
  | [], acc => .ok acc
  | kv :: rest, acc =>
    match normStep acc kv with
    | .error e => .error e
    | .ok acc2 => normFold rest acc2

/-- `Chat.tsx` lines 476-485: normalization of one extracted record before
registration — `processed` starts as `{date: r.date}` and every
`{value, label}`-style column is unwrapped to its bare `value`. -/
def normalizeRecord (r : Json) : Except String Json :=
  match normFold r.toEntries [("date", r.get "date")] with
  | .error e => .error e
  | .ok fields => .ok (.obj fields)

/-- `Chat.tsx` lines 474-491: the registration loop over
`Object.entries(extractedData)`.  Each batch is normalized and posted to
the worker as `register { name: key.replace(/[^a-z0-9]/gi, '_'), records }`;
the worker binds it in the interpreter's global namespace
(`registerHandler`).  A `TypeError` thrown during normalization aborts the
loop (registrations already posted stay in effect). -/
def registerLoop : List (String × List Json) → Env → Env × Option String
  | [], env => (env, none)
  | (key, records) :: rest, env =>
    match records.mapM normalizeRecord with
    | .error e => (env, some e)
    | .ok processed => registerLoop rest (registerHandler (sanitizeName key) processed env)

/-- `Chat.tsx` lines 616-627: obtaining the code-generation object from the
response (function-call arguments with the literal `'{}'`/`''` guard, then
the JSON-encoded text fallback, then the structure error). -/
def codeGenObtained (parseJson : String → Except String Json)
    (resp : GatewayResponse) : Except String Json :=
  let contentFallback : Except String Json :=
    match contentOf resp with
    | some c =>
      if c != "" then parseJson c
      else .error "Response missing valid message structure"
    | none => .error "Response missing valid message structure"
  match fnCallOf resp with
  | some fc =>
    if fc.arguments != "" then
      if fc.arguments == "\x7b\x7d" || fc.arguments == "" then
        .error "Code generator returned empty data"
      else
        parseJson fc.arguments
    else
      contentFallback
  | none => contentFallback

/-- `Chat.tsx` lines 614-631: the code-generation response validation.
The only field check is lines 629-631,
`if (!codeGen.python || !codeGen.result_type)` — truthiness of both
fields; membership of `result_type` in `{plot, table, value}` is NOT
checked anywhere. -/
def parseCodeGenResponse (parseJson : String → Except String Json)
    (resp : GatewayResponse) : Except String Json :=
  match codeGenObtained parseJson resp with
  | .error e => .error e
  | .ok codeGen =>
    if (codeGen.get "python").falsy || (codeGen.get "result_type").falsy then
      .error "Generated code missing required fields"
    else
      .ok codeGen

/-- One `exec` request posted to the Python worker
(`Chat.tsx` lines 635-640). -/
structure ExecRequest where
  code : Json
  resultType : Json
  dfName : String

/-- `Chat.tsx` lines 613-646: the per-task code-generation loop.  The same
code-generation response is re-parsed for every task; on success an `exec`
message is posted with
`dfName = ${task.fileId.replace(/[^a-z0-9]/gi,'_')}_${task.sheetId.replace(...)}`.
Parse failures (and the `TypeError` from calling `.replace` on a
non-string `fileId`/`sheetId`) are wrapped as
`Failed to parse code generation response: ...` and abort the run; exec
messages already posted stay posted. -/
def codeGenLoop (parseJson : String → Except String Json)
    (resp : GatewayResponse) :
    List Json → List ExecRequest → List ExecRequest × Option String
  | [], reqs => (reqs, none)
  | t :: rest, reqs =>
    match parseCodeGenResponse parseJson resp with
    | .error e => (reqs, some ("Failed to parse code generation response: " ++ e))
    | .ok codeGen =>
      match t.get "fileId", t.get "sheetId" with
      | .str f, .str s =>
        codeGenLoop parseJson resp rest
          (reqs ++ [⟨codeGen.get "python", codeGen.get "result_type",
            sanitizeName f ++ "_" ++ sanitizeName s⟩])
      | _, _ =>
        (reqs, some ("Failed to parse code generation response: "
          ++ "task.fileId.replace is not a function"))

/-- The observable outcome of one `handleMessage` run: the chat messages
(clarifications and `Error: ...` lines are appended to them), the number of
Model Gateway calls per stage, the interpreter environment after the
registrations that were posted, and the `exec` requests posted to the
worker. -/
structure RunTrace where
  messages : List Json
  plannerCalls : Nat
  extractorCalls : Nat
  codeGenCalls : Nat
  env : Env
  execRequests : List ExecRequest

/-- The external collaborators of one run: `JSON.parse` and the three
Model Gateway endpoints (the extractor is indexed by how many extractor
calls were made before it, matching the sequential `await` loop). -/
structure Oracles where
  parseJson : String → Except String Json
  planner : GatewayResponse
  extractor : Nat → GatewayResponse
  codeGen : GatewayResponse

/-- `Chat.tsx` lines 61-654: the pipeline orchestrator `handleMessage`.
* lines 63-67: with zero sheets loaded it appends the query and
  `Please drop an Excel file first` and returns — no Gateway call is made;
* line 69 appends the query, then the planner is called once; a non-ok
  response or a parse failure appends `Error: ...` and stops;
* a clarification is appended verbatim and stops the run;
* the extraction loop, the registration loop and the code-generation stage
  follow; any stage error appends `Error: ...` (outer catch, lines
  648-651) and aborts the remainder of the run. -/
def handleMessage (o : Oracles) (sheets : List SheetPNG) (message : String)
    (messages0 : List Json) (env0 : Env) : RunTrace :=
  if sheets.length == 0 then
    ⟨messages0 ++ [.str message, .str "Please drop an Excel file first"], 0, 0, 0, env0, []⟩
  else
    let msgs1 := messages0 ++ [.str message]
    if !o.planner.ok then
      ⟨msgs1 ++ [.str ("Error: Planner API error: " ++ toString o.planner.status
        ++ " - " ++ o.planner.bodyText)], 1, 0, 0, env0, []⟩
    else
      match parsePlannerResponse o.parseJson o.planner (sheets.map (fun s => s.fileId)) with
      | .clarified m => ⟨msgs1 ++ [m], 1, 0, 0, env0, []⟩
      | .failed e => ⟨msgs1 ++ [.str ("Error: " ++ e)], 1, 0, 0, env0, []⟩
      | .planned tasks =>
        let ex := extractLoop o.parseJson o.extractor sheets tasks 0 [] (.obj [])
        match ex.result with
        | .error e => ⟨msgs1 ++ [.str ("Error: " ++ e)], 1, ex.calls, 0, env0, []⟩
        | .ok (extractedData, _labels) =>
          match registerLoop extractedData env0 with
          | (env1, some e) => ⟨msgs1 ++ [.str ("Error: " ++ e)], 1, ex.calls, 0, env1, []⟩
          | (env1, none) =>
            if !o.codeGen.ok then
              ⟨msgs1 ++ [.str ("Error: Code generation API error: "
                ++ toString o.codeGen.status ++ " - " ++ o.codeGen.bodyText)],
                1, ex.calls, 1, env1, []⟩
            else
              match codeGenLoop o.parseJson o.codeGen tasks [] with
              | (reqs, some e) => ⟨msgs1 ++ [.str ("Error: " ++ e)], 1, ex.calls, 1, env1, reqs⟩
              | (reqs, none) => ⟨msgs1, 1, ex.calls, 1, env1, reqs⟩

/- ------------------------------------------------------------------------
Result Channel consumer: `WidgetGrid` (appended to `Chat.tsx` in the
source dump, lines 844-918).
------------------------------------------------------------------------ -/

/-- The fields of a `window` message event's `data` that the grid's
handler reads. -/
structure GridEventData where
  evType : Json
  target : Json
  resultType : Json
  payload : Json

/-- What the grid does with a message: nothing, or render a Plotly figure
from the decoded `data`/`layout`. -/
inductive RenderAction where
  | noRender
  | plot (figData : Json) (figLayout : Json)

/-- `WidgetGrid.handleMessage` (source lines 852-907):
* ignores events with a falsy `type` or a truthy `target`, and events whose
  `type` is not `'result'` or whose `resultType` is not `'plot'`;
* a falsy payload is rejected;
* a string payload is `JSON.parse`d (a parse failure renders nothing);
  any other payload is used directly — the dual-encoding allowance;
* a figure lacking truthy `data` or `layout` is rejected; otherwise the
  figure is rendered.  The plot container is assumed mounted. -/
def widgetHandleMessage (parseJson : String → Except String Json)
    (e : GridEventData) : RenderAction :=
  if e.evType.falsy || !e.target.falsy then .noRender
  else if !(jsStrEq e.evType "result") then .noRender
  else if !(jsStrEq e.resultType "plot") then .noRender
  else if e.payload.falsy then .noRender
  else
    let figure? : Option Json :=
      match e.payload with
      | .str s =>
        match parseJson s with
        | .ok j => some j
        | .error _ => none
      | v => some v
    match figure? with
    | none => .noRender
    | some figure =>
      if (figure.get "data").falsy || (figure.get "layout").falsy then .noRender
      else .plot (figure.get "data") (figure.get "layout")

/- ------------------------------------------------------------------------
Supporting lemmas.
------------------------------------------------------------------------ -/

/-- `setEntry` binds the assigned key. -/
theorem lookup_setEntry_self {α : Type} (fields : List (String × α)) (k : String) (v : α) :
    (setEntry fields k v).lookup k = some v := by
  unfold setEntry
  by_cases h : fields.any (fun p => p.1 == k) = true
  · rw [if_pos h]
    induction fields with
    | nil => simp at h
    | cons p rest ih =>
      by_cases hp : p.1 = k
      · simp [List.map_cons, hp]
      · have hpb : (p.1 == k) = false := by simp [hp]
        simp only [List.any_cons, hpb, Bool.false_or] at h
        simp only [List.map_cons, hpb, Bool.false_eq_true, if_false]
        rw [List.lookup_cons]
        have hkp : (k == p.1) = false := by simp; exact fun he => hp he.symm
        simp only [hkp]
        exact ih h
  · rw [if_neg h]
    rw [List.lookup_append]
    have hnone : fields.lookup k = none := by
      rw [List.lookup_eq_none_iff]
      intro p hp
      by_contra hc
      apply h
      rw [List.any_eq_true]
      refine ⟨p, hp, ?_⟩
      have : k = p.1 := by simpa using hc
      simp [this]
    rw [hnone]
    simp [List.lookup_cons]

/-- `setEntry` leaves other keys alone. -/
theorem lookup_setEntry_ne {α : Type} (fields : List (String × α)) (k k' : String) (v : α)
    (h : k' ≠ k) : (setEntry fields k v).lookup k' = fields.lookup k' := by
  unfold setEntry
  by_cases ha : fields.any (fun p => p.1 == k) = true
  · rw [if_pos ha]
    clear ha
    induction fields with
    | nil => rfl
    | cons p rest ih =>
      rw [List.map_cons]
      by_cases hp : p.1 = k
      · have hpb : (p.1 == k) = true := by simp [hp]
        simp only [hpb, if_true]
        rw [List.lookup_cons, List.lookup_cons]
        have h1 : (k' == k) = false := by simp [h]
        have h2 : (k' == p.1) = false := by rw [hp]; simp [h]
        simp only [h1, h2]
        exact ih
      · have hpb : (p.1 == k) = false := by simp [hp]
        simp only [hpb, Bool.false_eq_true, if_false]
        rw [List.lookup_cons, List.lookup_cons]
        cases hkp : k' == p.1 with
        | true => rfl
        | false => exact ih
  · rw [if_neg ha]
    rw [List.lookup_append]
    cases hl : fields.lookup k' with
    | some b => rfl
    | none =>
      simp only [Option.none_or]
      rw [List.lookup_cons]
      have : (k' == k) = false := by simp [h]
      simp [this]

/-- A successful `normStep` leaves every key other than its own (and in
particular `date`, which it never assigns) bound as before. -/
theorem normStep_preserves (acc acc2 : List (String × Json)) (kv : String × Json) (k : String)
    (hk : kv.1 = "date" ∨ kv.1 ≠ k)
    (h : normStep acc kv = .ok acc2) : acc2.lookup k = acc.lookup k := by
  unfold normStep at h
  split at h
  · cases h
    rfl
  · rename_i hdate
    have hne : kv.1 ≠ k := by
      rcases hk with hk | hk
      · exact absurd (by simp [hk]) hdate
      · exact hk
    split at h
    · cases h
    · split at h
      · cases h
        exact lookup_setEntry_ne _ _ _ _ (fun he => hne he.symm)
      · cases h
        rfl
    all_goals (cases h; rfl)

/-- `normStep` never touches the `date` binding of the accumulator. -/
theorem normFold_lookup_date : ∀ (l acc fields : List (String × Json)),
    normFold l acc = .ok fields → fields.lookup "date" = acc.lookup "date" := by
  intro l
  induction l with
  | nil =>
    intro acc fields h
    cases h
    rfl
  | cons kv rest ih =>
    intro acc fields h
    rw [normFold] at h
    cases hstep : normStep acc kv with
    | error e => rw [hstep] at h; cases h
    | ok acc2 =>
      rw [hstep] at h
      rw [ih acc2 fields h]
      exact normStep_preserves acc acc2 kv "date"
        (by by_cases hd : kv.1 = "date" <;> simp [hd]) hstep

/-- Keys that never occur in the remaining entries keep their binding
through the normalization fold. -/
theorem normFold_lookup_notmem : ∀ (l acc fields : List (String × Json)) (k : String),
    normFold l acc = .ok fields → (∀ kv ∈ l, kv.1 ≠ k) →
    fields.lookup k = acc.lookup k := by
  intro l
  induction l with
  | nil =>
    intro acc fields k h _
    cases h
    rfl
  | cons kv rest ih =>
    intro acc fields k h hmem
    rw [normFold] at h
    cases hstep : normStep acc kv with
    | error e => rw [hstep] at h; cases h
    | ok acc2 =>
      rw [hstep] at h
      rw [ih acc2 fields k h (fun q hq => hmem q (List.mem_cons_of_mem _ hq))]
      exact normStep_preserves acc acc2 kv k (Or.inr (hmem kv (List.mem_cons_self _ _))) hstep

/-- Through a successful normalization fold, a `{value, label}`-shaped
entry whose key is unique and distinct from `date` ends up bound to its
bare `value`. -/
theorem normFold_unwrap : ∀ (l acc fields : List (String × Json)) (k : String) (v lab : Json),
    normFold l acc = .ok fields → (l.map Prod.fst).Nodup →
    (k, Json.obj [("value", v), ("label", lab)]) ∈ l → k ≠ "date" →
    fields.lookup k = some v := by
  intro l
  induction l with
  | nil =>
    intro acc fields k v lab _ _ hmem _
    exact absurd hmem (List.not_mem_nil _)
  | cons kv rest ih =>
    intro acc fields k v lab h hnodup hmem hkdate
    rw [normFold] at h
    rcases List.mem_cons.mp hmem with hhead | htail
    · subst hhead
      have hstep : normStep acc (k, Json.obj [("value", v), ("label", lab)])
          = .ok (setEntry acc k v) := by
        simp [normStep, Json.get, List.lookup, hkdate]
      rw [hstep] at h
      have hnotin : ∀ q ∈ rest, q.1 ≠ k := by
        intro q hq he
        have hkmem : k ∈ rest.map Prod.fst := by
          rw [← he]
          exact List.mem_map_of_mem _ hq
        exact (List.nodup_cons.mp hnodup).1 hkmem
      rw [normFold_lookup_notmem rest _ fields k h hnotin]
      exact lookup_setEntry_self acc k v
    · cases hstep : normStep acc kv with
      | error e => rw [hstep] at h; cases h
      | ok acc2 =>
        rw [hstep] at h
        exact ih acc2 fields k v lab h (List.nodup_cons.mp hnodup).2 htail hkdate

/- ------------------------------------------------------------------------
Claim theorems.
------------------------------------------------------------------------ -/

/-- C1 (counterexample): when the sandboxed execution raises, the engine
does NOT produce a `result`-kind message with a sentinel-prefixed payload;
it posts an `error`-kind channel message.  Shown at a concrete failing
execution. -/
theorem exec_error_not_result_counterexample :
    pyWorkerExec (fun _ => .error "NameError: name \x27result\x27 is not defined")
        ⟨.str "x = 1", .str "plot", .str "sample_funds_xlsx_Sheet1"⟩
      = .workerError "Failed to execute Python code: NameError: name \x27result\x27 is not defined"
    ∧ isResultMessage
        (pyWorkerExec (fun _ => .error "NameError: name \x27result\x27 is not defined")
          ⟨.str "x = 1", .str "plot", .str "sample_funds_xlsx_Sheet1"⟩) = false :=
  ⟨rfl, rfl⟩

/-- C1 (amended): for every Exec request whose sandboxed execution raises an
exception, the engine catches it and posts an `error`-kind channel message
whose text is the fixed prefix `Failed to execute Python code: `
concatenated with the exception's message — the exception never crosses the
channel boundary — and the orchestrator does not forward that message to
the result channel. -/
theorem exec_exception_posts_prefixed_error
    (runPy : String → Except String String) (m : ExecMessage) (e : String)
    (h : runPy (executedPython m) = .error e) :
    pyWorkerExec runPy m = .workerError ("Failed to execute Python code: " ++ e)
    ∧ chatForwardWorkerMessage (pyWorkerExec runPy m) = none := by
  have h1 : pyWorkerExec runPy m = .workerError ("Failed to execute Python code: " ++ e) := by
    unfold pyWorkerExec
    rw [h]
  refine ⟨h1, ?_⟩
  rw [h1]
  rfl

/-- C1 (witness): the amended theorem applied to a concrete failing
execution. -/
theorem exec_exception_posts_prefixed_error_witness :
    pyWorkerExec (fun _ => .error "boom") ⟨.jsUndefined, .jsUndefined, .jsUndefined⟩
      = .workerError ("Failed to execute Python code: " ++ "boom")
    ∧ chatForwardWorkerMessage
        (pyWorkerExec (fun _ => .error "boom") ⟨.jsUndefined, .jsUndefined, .jsUndefined⟩) = none :=
  exec_exception_posts_prefixed_error (fun _ => .error "boom") ⟨.jsUndefined, .jsUndefined, .jsUndefined⟩ "boom" rfl

/-- C2 (counterexample): Register followed by a successful Exec with the
declared result kind `table` yields a result whose kind is the hardcoded
`plot`, not `table`. -/
theorem exec_kind_roundtrip_counterexample :
    envLookup "t" (registerHandler "t" [Json.obj [("date", Json.str "2020-01")]] [])
      = some [Json.obj [("date", Json.str "2020-01")]]
    ∧ pyWorkerExec (fun _ => .ok "[]") ⟨.str "result = df", .str "table", .str "t"⟩
      = .result "plot" "[]"
    ∧ ("table" : String) ≠ "plot" := by
  refine ⟨rfl, rfl, by decide⟩

/-- C2 (amended): `Register(name, records)` binds `name`, and a subsequent
`Exec` that succeeds posts a result whose kind is ALWAYS `plot`, regardless
of the declared result kind `K`; the result kind equals `K` only when
`K = plot`. -/
theorem exec_result_kind_always_plot (name : String) (rs : List Json) (env : Env)
    (runPy : String → Except String String) (m : ExecMessage) (res : String)
    (hrun : runPy (executedPython m) = .ok res) (hres : res ≠ "") :
    envLookup name (registerHandler name rs env) = some rs
    ∧ pyWorkerExec runPy m = .result "plot" res
    ∧ ∀ K : String, K ≠ "plot" → pyWorkerExec runPy m ≠ .result K res := by
  have h1 : envLookup name (registerHandler name rs env) = some rs := by
    simp [envLookup, registerHandler, List.lookup_cons]
  have h2 : pyWorkerExec runPy m = .result "plot" res := by
    unfold pyWorkerExec
    rw [hrun]
    have : (res == "") = false := by simp [hres]
    simp [this]
  refine ⟨h1, h2, ?_⟩
  intro K hK hcontra
  rw [h2] at hcontra
  have : "plot" = K := by
    injection hcontra with hk _
  exact hK this.symm

/-- C2 (witness): the amended theorem applied at a concrete
register-then-exec round trip. -/
theorem exec_result_kind_always_plot_witness :
    envLookup "t" (registerHandler "t" [] []) = some []
    ∧ pyWorkerExec (fun _ => .ok "x") ⟨.jsUndefined, .jsUndefined, .jsUndefined⟩ = .result "plot" "x"
    ∧ ∀ K : String, K ≠ "plot" →
        pyWorkerExec (fun _ => .ok "x") ⟨.jsUndefined, .jsUndefined, .jsUndefined⟩ ≠ .result K "x" :=
  exec_result_kind_always_plot "t" [] [] (fun _ => .ok "x") ⟨.jsUndefined, .jsUndefined, .jsUndefined⟩ "x"
    rfl (by decide)

/-- C3 (counterexample): the Python text the engine actually runs is
identical for two Exec requests whose submitted code texts differ — the
engine does not execute the submitted code. -/
theorem exec_ignores_submitted_code_counterexample :
    executedPython ⟨.str "result = 1", .str "value", .str "t"⟩
      = executedPython ⟨.str "result = 2", .str "value", .str "t"⟩
    ∧ (ExecMessage.mk (.str "result = 1") (.str "value") (.str "t")).code
      ≠ (ExecMessage.mk (.str "result = 2") (.str "value") (.str "t")).code := by
  refine ⟨rfl, ?_⟩
  intro h
  injection h with h'
  exact absurd h' (by decide)

/-- C3 (amended): the guarded harness binds the table registered under
`dfName` (falling back to the default `sample_funds_xlsx_Sheet1` when the
request carries none) to the conventional local name `df`, inside a local
`try`/`except` exception boundary — but it executes a fixed engine-chosen
auto-chart computation, ignoring the submitted code text entirely. -/
theorem exec_harness_binds_table_ignores_code (m : ExecMessage) :
    executedPython m
      = execHarnessPre ++ (execDfName m).toDisplay ++ execHarnessBody ++ execHarnessCatch
    ∧ execHarnessPre = "\ntry:\n    df = globals()[\x27"
    ∧ execHarnessCatch
      = "except Exception as e:\n    print(f\"Error executing code: \x7bstr(e)\x7d\")\n    raise e\nresult\n"
    ∧ (∀ c : Json, executedPython ⟨c, m.resultType, m.dfName⟩ = executedPython m)
    ∧ (m.dfName.falsy = true → execDfName m = .str "sample_funds_xlsx_Sheet1") := by
  refine ⟨rfl, rfl, rfl, fun c => rfl, fun h => ?_⟩
  unfold execDfName
  rw [h]
  rfl

/-- C3 (witness): the amended theorem applied at a concrete request with no
`dfName`, exhibiting the fallback default table name. -/
theorem exec_harness_binds_table_ignores_code_witness :
    execDfName ⟨Json.jsUndefined, Json.jsUndefined, Json.jsUndefined⟩ = .str "sample_funds_xlsx_Sheet1" :=
  (exec_harness_binds_table_ignores_code ⟨Json.jsUndefined, Json.jsUndefined, Json.jsUndefined⟩).2.2.2.2 rfl

/-- C6: a query submitted with zero sheets loaded halts immediately with the
user-visible message `Please drop an Excel file first`, and no request is
sent to the Model Gateway (all three per-stage call counters are zero) and
nothing reaches the sandbox engine. -/
theorem empty_sheets_halts_without_gateway (o : Oracles) (message : String)
    (messages0 : List Json) (env0 : Env) :
    handleMessage o [] message messages0 env0
      = ⟨messages0 ++ [.str message, .str "Please drop an Excel file first"],
          0, 0, 0, env0, []⟩ :=
  rfl

/-- C10: a task whose `fileId` is present in the inventory but whose
`(fileId, sheetId)` pair matches no loaded sheet is silently skipped by
the extraction loop: no extractor Gateway call is made for it, no error is
raised, no `extractedData` entry (hence no table registration) is produced
for it, and the loop proceeds with the remaining tasks unchanged. -/
theorem unmatched_sheet_task_skipped (parseJson : String → Except String Json)
    (extractor : Nat → GatewayResponse) (sheets : List SheetPNG)
    (t : Json) (rest : List Json) (calls : Nat)
    (acc : List (String × List Json)) (labels : Json)
    (_hinv : sheets.any (fun s => jsStrEq (t.get "fileId") s.fileId) = true)
    (hfind : findSheet sheets t = none) :
    extractLoop parseJson extractor sheets (t :: rest) calls acc labels
      = extractLoop parseJson extractor sheets rest calls acc labels := by
  rw [extractLoop]
  rw [hfind]

/-- C10 (witness): the skip theorem applied at a concrete task whose file is
loaded but whose sheet name matches no sheet. -/
theorem unmatched_sheet_task_skipped_witness :
    extractLoop (fun _ => .error "x") (fun _ => ⟨false, 500, "", none⟩)
        [⟨"a.xlsx", "Sheet1", "blob:a", 100, 25⟩]
        [Json.obj [("fileId", Json.str "a.xlsx"), ("sheetId", Json.str "Missing")]]
        0 [] (.obj [])
      = extractLoop (fun _ => .error "x") (fun _ => ⟨false, 500, "", none⟩)
        [⟨"a.xlsx", "Sheet1", "blob:a", 100, 25⟩] [] 0 [] (.obj []) :=
  unmatched_sheet_task_skipped (fun _ => .error "x") (fun _ => ⟨false, 500, "", none⟩)
    [⟨"a.xlsx", "Sheet1", "blob:a", 100, 25⟩]
    (Json.obj [("fileId", Json.str "a.xlsx"), ("sheetId", Json.str "Missing")])
    [] 0 [] (.obj []) rfl rfl

/-- C7: `Register(name, records)` normalization and materialization.
(1) A successfully normalized record keeps `date` bound to the record's
`date` value and has every `{value, label}` pair column (with a unique,
non-`date` key) unwrapped to its bare scalar `value`;
(2) the records are materialized as a table bound to `name` in the
interpreter's global namespace;
(3) re-registering the same name overwrites the prior table;
(4) the orchestrator's registration loop materializes exactly the
sanitized key with the normalized records. -/
theorem register_normalizes_binds_overwrites :
    (∀ (r : Json) (fields : List (String × Json)),
      normalizeRecord r = .ok (.obj fields) →
      fields.lookup "date" = some (r.get "date")
      ∧ ∀ (k : String) (v lab : Json),
          (r.toEntries.map Prod.fst).Nodup →
          (k, Json.obj [("value", v), ("label", lab)]) ∈ r.toEntries →
          k ≠ "date" →
          fields.lookup k = some v)
    ∧ (∀ (name : String) (rs rs2 : List Json) (env : Env),
      envLookup name (registerHandler name rs env) = some rs
      ∧ envLookup name (registerHandler name rs2 (registerHandler name rs env)) = some rs2)
    ∧ (∀ (key : String) (records processed : List Json) (env : Env),
      records.mapM normalizeRecord = .ok processed →
      registerLoop [(key, records)] env
        = (registerHandler (sanitizeName key) processed env, none)) := by
  refine ⟨?_, ?_, ?_⟩
  · intro r fields h
    have hfold : normFold r.toEntries [("date", r.get "date")] = .ok fields := by
      unfold normalizeRecord at h
      cases hf : normFold r.toEntries [("date", r.get "date")] with
      | error e => rw [hf] at h; cases h
      | ok flds =>
        rw [hf] at h
        cases h
        rfl
    constructor
    · rw [normFold_lookup_date _ _ _ hfold]
      simp [List.lookup_cons]
    · intro k v lab hnodup hmem hkdate
      exact normFold_unwrap _ _ _ _ _ _ hfold hnodup hmem hkdate
  · intro name rs rs2 env
    constructor
    · simp [envLookup, registerHandler, List.lookup_cons]
    · simp [envLookup, registerHandler, List.lookup_cons]
  · intro key records processed env h
    rw [registerLoop]
    rw [h]
    rfl

/-- C7 (witness): the theorem applied to a concrete record with one
`{value, label}` column, a concrete overwrite, and a concrete
registration-loop run. -/
theorem register_normalizes_binds_overwrites_witness :
    (([("date", Json.str "2020-01"), ("col_a", Json.num 5)] :
        List (String × Json)).lookup "col_a" = some (Json.num 5))
    ∧ envLookup "t" (registerHandler "t" [Json.num 2] (registerHandler "t" [Json.num 1] []))
      = some [Json.num 2]
    ∧ registerLoop [("a.xlsx_Sheet1", [Json.obj [("date", Json.str "2020-01")]])] []
      = (registerHandler (sanitizeName "a.xlsx_Sheet1")
          [Json.obj [("date", Json.str "2020-01")]] [], none)
    ∧ sanitizeName "a.xlsx_Sheet1" = "a_xlsx_Sheet1" := by
  refine ⟨?_, ?_, ?_, by decide⟩
  · exact
      (register_normalizes_binds_overwrites.1
        (Json.obj [("date", Json.str "2020-01"),
          ("col_a", Json.obj [("value", Json.num 5), ("label", Json.str "Col A")])])
        [("date", Json.str "2020-01"), ("col_a", Json.num 5)] rfl).2
        "col_a" (Json.num 5) (Json.str "Col A")
        (by decide)
        (List.mem_cons_of_mem _ (List.mem_cons_self _ _))
        (by decide)
  · exact (register_normalizes_binds_overwrites.2.1 "t" [Json.num 1] [Json.num 2] []).2
  · exact register_normalizes_binds_overwrites.2.2 "a.xlsx_Sheet1"
      [Json.obj [("date", Json.str "2020-01")]] [Json.obj [("date", Json.str "2020-01")]] [] rfl

/-- C4 (counterexample): a planner response in the JSON-encoded text
fallback encoding whose single task references `unknown.xlsx`, absent from
the one-sheet inventory, is NOT rejected: the parse yields the task list
(no `PlanningError`), and the whole run then proceeds past planning —
zero extractor calls are made (the task is silently skipped) and the
code-generation stage still runs and posts an exec request. -/
theorem planner_content_fallback_skips_validation_counterexample :
    ([(⟨"a.xlsx", "Sheet1", "blob:a", 100, 25⟩ : SheetPNG)].all
        (fun s => s.fileId != "unknown.xlsx")) = true
    ∧ parsePlannerResponse
        (fun s => if s == "P" then
            .ok (.obj [("tasks", .arr [.obj [("fileId", .str "unknown.xlsx"),
              ("sheetId", .str "X")]])])
          else .error "Unexpected token")
        ⟨true, 200, "", some ⟨none, some "P"⟩⟩ ["a.xlsx"]
      = .planned [.obj [("fileId", .str "unknown.xlsx"), ("sheetId", .str "X")]]
    ∧ handleMessage
        ⟨fun s => if s == "P" then
            .ok (.obj [("tasks", .arr [.obj [("fileId", .str "unknown.xlsx"),
              ("sheetId", .str "X")]])])
          else if s == "G" then
            .ok (.obj [("python", .str "result = 1"), ("result_type", .str "value")])
          else .error "Unexpected token",
          ⟨true, 200, "", some ⟨none, some "P"⟩⟩,
          fun _ => ⟨false, 500, "", none⟩,
          ⟨true, 200, "", some ⟨some ⟨"generate_python_code", "G"⟩, none⟩⟩⟩
        [⟨"a.xlsx", "Sheet1", "blob:a", 100, 25⟩] "q" [] []
      = ⟨[.str "q"], 1, 0, 1, [],
          [⟨.str "result = 1", .str "value", sanitizeName "unknown.xlsx" ++ "_" ++ sanitizeName "X"⟩]⟩ := by
  refine ⟨rfl, rfl, rfl⟩

/-- C4 (amended): the unknown-`fileId` validation holds ONLY for the
structured function-call encoding: an `extract_tasks` function call whose
parsed task list contains a task with a `fileId` outside the inventory is
rejected as a planning error, and a planner-parse failure stops the run
with zero extraction calls and zero further stage activity.  (In the
JSON-encoded text fallback the validation is absent — see the
counterexample.) -/
theorem planner_fn_call_unknown_fileId_fails :
    (∀ (parseJson : String → Except String Json) (resp : GatewayResponse)
        (validFileIds : List String) (fc : FunctionCall) (fa : Json),
      fnCallOf resp = some fc → fc.name = "extract_tasks" → fc.arguments ≠ "" →
      parseJson fc.arguments = .ok fa →
      (fa.get "tasks").falsy = false → (fa.get "tasks").isArray = true →
      (∃ t ∈ (fa.get "tasks").asArr,
        (validFileIds.any (fun v => jsStrEq (t.get "fileId") v)) = false) →
      ∃ e, parsePlannerResponse parseJson resp validFileIds = .failed e)
    ∧ (∀ (o : Oracles) (sheets : List SheetPNG) (message : String)
        (messages0 : List Json) (env0 : Env) (e : String),
      sheets.length ≠ 0 → o.planner.ok = true →
      parsePlannerResponse o.parseJson o.planner (sheets.map (fun s => s.fileId)) = .failed e →
      handleMessage o sheets message messages0 env0
        = ⟨messages0 ++ [.str message, .str ("Error: " ++ e)], 1, 0, 0, env0, []⟩) := by
  constructor
  · intro pj resp ids fc fa h1 h2 h3 h4 h5 h6 hex
    obtain ⟨t, ht, hbad⟩ := hex
    have hn1 : (fc.name == "clarify_user_intent") = false := by rw [h2]; rfl
    have hn2 : (fc.name == "extract_tasks" && fc.arguments != "") = true := by
      rw [h2]
      simp [h3]
    unfold parsePlannerResponse
    rw [h1]
    dsimp only
    rw [if_neg (by simp [hn1])]
    rw [if_pos hn2]
    rw [h4]
    dsimp only
    rw [if_neg (by simp [h5, h6])]
    have hmemf : t ∈ (fa.get "tasks").asArr.filter
        (fun t => !(ids.any (fun v => jsStrEq (t.get "fileId") v))) :=
      List.mem_filter.mpr ⟨ht, by simp [hbad]⟩
    have hpos : 0 < ((fa.get "tasks").asArr.filter
        (fun t => !(ids.any (fun v => jsStrEq (t.get "fileId") v)))).length :=
      List.length_pos.mpr (List.ne_nil_of_mem hmemf)
    rw [if_pos hpos]
    exact ⟨_, rfl⟩
  · intro o sheets message msgs0 env0 e h1 h2 h3
    unfold handleMessage
    rw [if_neg (by simp [h1])]
    rw [h2]
    rw [if_neg (by simp)]
    rw [h3]
    simp [List.append_assoc]

/-- C4 (witness): the amended theorem applied to a concrete function-call
planner response with an unknown `fileId`. -/
theorem planner_fn_call_unknown_fileId_fails_witness :
    ∃ e, parsePlannerResponse
        (fun _ => .ok (.obj [("tasks", .arr [.obj [("fileId", .str "unknown.xlsx")]])]))
        ⟨true, 200, "", some ⟨some ⟨"extract_tasks", "T"⟩, none⟩⟩ ["a.xlsx"]
      = .failed e :=
  planner_fn_call_unknown_fileId_fails.1
    (fun _ => .ok (.obj [("tasks", .arr [.obj [("fileId", .str "unknown.xlsx")]])]))
    ⟨true, 200, "", some ⟨some ⟨"extract_tasks", "T"⟩, none⟩⟩ ["a.xlsx"]
    ⟨"extract_tasks", "T"⟩ (.obj [("tasks", .arr [.obj [("fileId", .str "unknown.xlsx")]])])
    rfl rfl (by decide) rfl rfl rfl
    ⟨.obj [("fileId", .str "unknown.xlsx")], List.mem_cons_self _ _, rfl⟩

/-- C5 (counterexample): an extractor response whose single record carries
NO `date` field is accepted as a successful batch — no `ExtractionError` is
raised for the missing `date`. -/
theorem extractor_missing_date_accepted_counterexample :
    parseExtractorResponse
        (fun _ => .ok (.obj [("records", .arr [.obj [("col_a", .num 1)]])]))
        ⟨true, 200, "", some ⟨some ⟨"extract_records", "A"⟩, none⟩⟩
      = .ok ([.obj [("col_a", .num 1)]], .obj [])
    ∧ (Json.obj [("col_a", Json.num 1)]).get "date" = .jsUndefined :=
  ⟨rfl, rfl⟩

/-- C5 (amended): every extraction batch the pipeline accepts is non-empty
and came from a response that parsed as structured data (a response with
neither function-call arguments nor content is rejected), and any
extraction-stage failure aborts the whole run — no registration, no
code-generation call, no exec request.  The per-record `date` check claimed
by the specification does not exist (see the counterexample). -/
theorem extractor_accepted_batches_nonempty :
    (∀ (parseJson : String → Except String Json) (resp : GatewayResponse)
        (records : List Json) (labels : Json),
      parseExtractorResponse parseJson resp = .ok (records, labels) → records ≠ [])
    ∧ (∀ (parseJson : String → Except String Json) (resp : GatewayResponse),
      fnCallOf resp = none → contentOf resp = none →
      parseExtractorResponse parseJson resp
        = .error "Response missing valid message structure")
    ∧ (∀ (o : Oracles) (sheets : List SheetPNG) (message : String)
        (messages0 : List Json) (env0 : Env) (tasks : List Json) (calls : Nat) (e : String),
      sheets.length ≠ 0 → o.planner.ok = true →
      parsePlannerResponse o.parseJson o.planner (sheets.map (fun s => s.fileId))
        = .planned tasks →
      extractLoop o.parseJson o.extractor sheets tasks 0 [] (.obj []) = ⟨calls, .error e⟩ →
      handleMessage o sheets message messages0 env0
        = ⟨messages0 ++ [.str message, .str ("Error: " ++ e)], 1, calls, 0, env0, []⟩) := by
  refine ⟨?_, ?_, ?_⟩
  · intro pj resp records labels h
    unfold parseExtractorResponse at h
    cases hraw : parseExtractorRaw pj resp with
    | error e => rw [hraw] at h; cases h
    | ok out =>
      rw [hraw] at h
      obtain ⟨rs, ls⟩ := out
      dsimp only at h
      by_cases hlen : (rs.length == 0) = true
      · rw [if_pos hlen] at h; cases h
      · rw [if_neg hlen] at h
        cases h
        intro hnil
        exact hlen (by simp [hnil])
  · intro pj resp h1 h2
    unfold parseExtractorResponse parseExtractorRaw
    rw [h1, h2]
  · intro o sheets message msgs0 env0 tasks calls e h1 h2 h3 h4
    unfold handleMessage
    rw [if_neg (by simp [h1])]
    rw [h2]
    rw [if_neg (by simp)]
    rw [h3]
    dsimp only
    rw [h4]
    simp [List.append_assoc]

/-- C5 (witness): the amended theorem applied at a concrete accepted batch
and a concrete structureless response. -/
theorem extractor_accepted_batches_nonempty_witness :
    ([Json.obj [("date", Json.str "2020-01")]] : List Json) ≠ []
    ∧ parseExtractorResponse (fun _ => .error "e") ⟨true, 200, "", none⟩
      = .error "Response missing valid message structure" :=
  ⟨extractor_accepted_batches_nonempty.1
      (fun _ => .ok (.obj [("records", .arr [.obj [("date", .str "2020-01")]])]))
      ⟨true, 200, "", some ⟨some ⟨"extract_records", "A"⟩, none⟩⟩
      [Json.obj [("date", Json.str "2020-01")]] (.obj []) rfl,
    extractor_accepted_batches_nonempty.2.1 (fun _ => .error "e") ⟨true, 200, "", none⟩ rfl rfl⟩

/-- C8 (counterexample): a code-generation response with non-empty code and
`result_type: "banana"` — a kind OUTSIDE `{plot, table, value}` — is
accepted: the validation only checks truthiness of the two fields, not
membership in the result-kind set. -/
theorem codegen_kind_not_validated_counterexample :
    parseCodeGenResponse
        (fun _ => .ok (.obj [("python", .str "result = 1"), ("result_type", .str "banana")]))
        ⟨true, 200, "", some ⟨some ⟨"generate_python_code", "B"⟩, none⟩⟩
      = .ok (.obj [("python", .str "result = 1"), ("result_type", .str "banana")])
    ∧ (Json.obj [("python", Json.str "result = 1"),
        ("result_type", Json.str "banana")]).get "result_type" = .str "banana"
    ∧ ("banana" ≠ "plot" ∧ "banana" ≠ "table" ∧ "banana" ≠ "value") :=
  ⟨rfl, rfl, by decide⟩

/-- C8 (amended): a code-generation response is accepted exactly when it
parses and both its code text and its result kind are truthy (non-empty);
a parsed response with either field falsy is rejected with
`Generated code missing required fields`, and any code-generation parse
failure stops the per-task loop before any exec request is posted.
Membership of the result kind in `{plot, table, value}` is NOT checked
(see the counterexample). -/
theorem codegen_truthiness_only :
    (∀ (parseJson : String → Except String Json) (resp : GatewayResponse) (cg : Json),
      parseCodeGenResponse parseJson resp = .ok cg →
      (cg.get "python").falsy = false ∧ (cg.get "result_type").falsy = false)
    ∧ (∀ (parseJson : String → Except String Json) (resp : GatewayResponse) (j : Json),
      codeGenObtained parseJson resp = .ok j →
      ((j.get "python").falsy = true ∨ (j.get "result_type").falsy = true) →
      parseCodeGenResponse parseJson resp = .error "Generated code missing required fields")
    ∧ (∀ (parseJson : String → Except String Json) (resp : GatewayResponse)
        (t : Json) (rest : List Json) (e : String),
      parseCodeGenResponse parseJson resp = .error e →
      codeGenLoop parseJson resp (t :: rest) []
        = ([], some ("Failed to parse code generation response: " ++ e))) := by
  refine ⟨?_, ?_, ?_⟩
  · intro pj resp cg h
    unfold parseCodeGenResponse at h
    cases hob : codeGenObtained pj resp with
    | error e => rw [hob] at h; cases h
    | ok j =>
      rw [hob] at h
      dsimp only at h
      by_cases hfal : ((j.get "python").falsy || (j.get "result_type").falsy) = true
      · rw [if_pos hfal] at h; cases h
      · rw [if_neg hfal] at h
        cases h
        simpa [Bool.or_eq_true] using hfal
  · intro pj resp j h1 h2
    unfold parseCodeGenResponse
    rw [h1]
    dsimp only
    rw [if_pos (by rcases h2 with h2 | h2 <;> simp [h2])]
  · intro pj resp t rest e h
    rw [codeGenLoop]
    rw [h]

/-- C8 (witness): the amended theorem applied to a concrete accepted
response, a concrete rejected response with empty code text, and a
concrete failing per-task loop. -/
theorem codegen_truthiness_only_witness :
    ((Json.obj [("python", Json.str "result = 1"),
        ("result_type", Json.str "plot")]).get "python").falsy = false
    ∧ parseCodeGenResponse (fun _ => .ok (.obj [("python", .str ""), ("result_type", .str "plot")]))
        ⟨true, 200, "", some ⟨some ⟨"generate_python_code", "B"⟩, none⟩⟩
      = .error "Generated code missing required fields"
    ∧ codeGenLoop (fun _ => .error "bad json")
        ⟨true, 200, "", some ⟨some ⟨"generate_python_code", "B"⟩, none⟩⟩
        [.obj []] []
      = ([], some ("Failed to parse code generation response: " ++ "bad json")) :=
  ⟨(codegen_truthiness_only.1
      (fun _ => .ok (.obj [("python", .str "result = 1"), ("result_type", .str "plot")]))
      ⟨true, 200, "", some ⟨some ⟨"generate_python_code", "B"⟩, none⟩⟩
      (.obj [("python", .str "result = 1"), ("result_type", .str "plot")]) rfl).1,
    codegen_truthiness_only.2.1
      (fun _ => .ok (.obj [("python", .str ""), ("result_type", .str "plot")]))
      ⟨true, 200, "", some ⟨some ⟨"generate_python_code", "B"⟩, none⟩⟩
      (.obj [("python", .str ""), ("result_type", .str "plot")]) rfl (Or.inl rfl),
    codegen_truthiness_only.2.2
      (fun _ => .error "bad json")
      ⟨true, 200, "", some ⟨some ⟨"generate_python_code", "B"⟩, none⟩⟩
      (.obj []) [] "bad json" rfl⟩

/-- C9: the result-channel consumer accepts the payload in both encodings:
a JSON-encoded string payload is parsed and an already-structured payload
is used directly, and both encodings of the same figure produce the same
rendered plot (given the figure has truthy `data` and `layout`). -/
theorem widget_dual_payload_encoding (parseJson : String → Except String Json)
    (s : String) (figure : Json)
    (hs : s ≠ "") (hp : parseJson s = .ok figure)
    (hd : (figure.get "data").falsy = false)
    (hl : (figure.get "layout").falsy = false) :
    widgetHandleMessage parseJson ⟨.str "result", .jsUndefined, .str "plot", .str s⟩
      = .plot (figure.get "data") (figure.get "layout")
    ∧ widgetHandleMessage parseJson ⟨.str "result", .jsUndefined, .str "plot", figure⟩
      = .plot (figure.get "data") (figure.get "layout") := by
  constructor
  · unfold widgetHandleMessage
    rw [if_neg (by simp [Json.falsy])]
    rw [if_neg (by simp [jsStrEq])]
    rw [if_neg (by simp [jsStrEq])]
    rw [if_neg (by simp [Json.falsy, hs])]
    dsimp only
    rw [hp]
    dsimp only
    rw [if_neg (by simp [hd, hl])]
  · have hobj : ∃ fs, figure = .obj fs := by
      cases figure with
      | obj fs => exact ⟨fs, rfl⟩
      | jsUndefined => cases hd
      | null => cases hd
      | bool b => simp [Json.get, Json.falsy] at hd
      | num n => simp [Json.get, Json.falsy] at hd
      | str t => simp [Json.get, Json.falsy] at hd
      | arr xs => simp [Json.get, Json.falsy] at hd
    obtain ⟨fs, rfl⟩ := hobj
    unfold widgetHandleMessage
    rw [if_neg (by simp [Json.falsy])]
    rw [if_neg (by simp [jsStrEq])]
    rw [if_neg (by simp [jsStrEq])]
    rw [if_neg (by simp [Json.falsy])]
    dsimp only
    rw [if_neg (by simp [hd, hl])]

/-- C9 (witness): the dual-encoding theorem applied to a concrete figure,
once JSON-encoded and once structured. -/
theorem widget_dual_payload_encoding_witness :
    widgetHandleMessage
        (fun _ => .ok (.obj [("data", .arr []), ("layout", .obj [("title", .str "t")])]))
        ⟨.str "result", .jsUndefined, .str "plot", .str "x"⟩
      = .plot ((Json.obj [("data", Json.arr []),
            ("layout", Json.obj [("title", Json.str "t")])]).get "data")
          ((Json.obj [("data", Json.arr []),
            ("layout", Json.obj [("title", Json.str "t")])]).get "layout")
    ∧ widgetHandleMessage
        (fun _ => .ok (.obj [("data", .arr []), ("layout", .obj [("title", .str "t")])]))
        ⟨.str "result", .jsUndefined, .str "plot",
          .obj [("data", .arr []), ("layout", .obj [("title", .str "t")])]⟩
      = .plot ((Json.obj [("data", Json.arr []),
            ("layout", Json.obj [("title", Json.str "t")])]).get "data")
          ((Json.obj [("data", Json.arr []),
            ("layout", Json.obj [("title", Json.str "t")])]).get "layout") :=
  widget_dual_payload_encoding
    (fun _ => .ok (.obj [("data", .arr []), ("layout", .obj [("title", .str "t")])]))
    "x" (.obj [("data", .arr []), ("layout", .obj [("title", .str "t")])])
    (by decide) rfl rfl rfl
